import Mathlib

/-!
Verification of the Zavis LinkedIn marketing tool against its
natural-language specification.  Frontend behaviour (pages
`JobDetail`, `CreateScraper`) is embedded directly from the React
source; the backend components (job state machine, account guard,
resolution engine, extraction engine, scheduler) are not part of the
source tree and are modelled from the specification where a claim
needs them.
-/

namespace Zavis

/- ------------------------------------------------------------------
Job state machine (launch), and the launch button condition of the
job-detail pages.
------------------------------------------------------------------ -/

/-- Job states of the core state machine:
`PENDING → RESOLVING → EXTRACTING → CLASSIFYING → COMPLETED`, with
`FAILED` and `PAUSED` reachable from any non-terminal state. -/
inductive JobState
  | PENDING
  | RESOLVING
  | EXTRACTING
  | CLASSIFYING
  | COMPLETED
  | FAILED
  | PAUSED
deriving DecidableEq, Repr

/-- A state is active when a run is in flight (one of the three
working stages). -/
def JobState.isActive : JobState → Bool
  | .RESOLVING => true
  | .EXTRACTING => true
  | .CLASSIFYING => true
  | _ => false

/-- A job as seen by the state machine: its current state and the
number of run contexts created so far (a fresh run bumps the
counter). -/
structure Job where
  state : JobState
  runCount : Nat
deriving DecidableEq, Repr

/-- Result of a launch request. -/
inductive LaunchResult
  | launched
  | error (msg : String)
deriving DecidableEq, Repr

/-- Modelled from the spec: the backend `launch` operation is not under
the source tree.  `launch`: PENDING/PAUSED/COMPLETED/FAILED → active
run created (a fresh run context, entering the first working stage);
invalid from an already-active state: returns a "job already running"
error and causes no state change. -/
def launch (j : Job) : LaunchResult × Job :=
  if j.state.isActive then
    (.error "job already running", j)
  else
    (.launched, { state := .RESOLVING, runCount := j.runCount + 1 })

/-- Launch-button visibility of the job-detail pages: the button is
rendered exactly when `job.status !== 'processing'`. -/
def showLaunchButton (status : String) : Bool :=
  status != "processing"

/- ------------------------------------------------------------------
Account Guard.
------------------------------------------------------------------ -/

/-- Result of an acquire attempt on the account guard. -/
inductive AcquireResult
  | lease
  | busy
deriving DecidableEq, Repr

/-- Modelled from the spec: the Account Guard's lease table is not
under the source tree.  The state records which account ids currently
have an outstanding lease. -/
structure GuardState where
  held : List String
deriving DecidableEq, Repr

/-- Modelled from the spec: `acquire(accountId) → lease | busy`.  A
second acquire while a lease is held returns busy and changes
nothing; otherwise the lease is granted and recorded. -/
def acquire (g : GuardState) (acc : String) : AcquireResult × GuardState :=
  if acc ∈ g.held then (.busy, g)
  else (.lease, ⟨acc :: g.held⟩)

/-- Modelled from the spec: `release(lease)` frees the account's
outstanding lease. -/
def release (g : GuardState) (acc : String) : GuardState :=
  ⟨g.held.filter (fun a => a ≠ acc)⟩

/-- A run of `n` consecutive acquire attempts for the same account,
recording each result in order. -/
def acquireRun (g : GuardState) (acc : String) : Nat → List AcquireResult
  | 0 => []
  | n + 1 =>
    let p := acquire g acc
    p.1 :: acquireRun p.2 acc n

/- ------------------------------------------------------------------
Extraction engine: inter-request spacing.
------------------------------------------------------------------ -/

/-- Modelled from the spec: the extraction engine is not under the
source tree.  Between consecutive page fetches under one lease, an
enforced minimum spacing delay (jittered) is applied: the wait before
each subsequent fetch is the configured floor `minSpacing` plus a
non-negative jitter.  `fetchTimes minSpacing t0 jitters` is the list
of fetch timestamps, starting at `t0`, with one later fetch per
jitter entry. -/
def fetchTimes (minSpacing t0 : Nat) : List Nat → List Nat
  | [] => [t0]
  | j :: js => t0 :: fetchTimes minSpacing (t0 + minSpacing + j) js

/- ------------------------------------------------------------------
Resolution engine: confidence tiers and passthrough.
------------------------------------------------------------------ -/

/-- Confidence tiers of a resolution, ordered
NONE < LOW < MEDIUM < HIGH < EXACT. -/
inductive Tier
  | NONE
  | LOW
  | MEDIUM
  | HIGH
  | EXACT
deriving DecidableEq, Repr

/-- Rank of a tier in the ordering NONE < LOW < MEDIUM < HIGH < EXACT. -/
def Tier.rank : Tier → Nat
  | .NONE => 0
  | .LOW => 1
  | .MEDIUM => 2
  | .HIGH => 3
  | .EXACT => 4

/-- Modelled from the spec: the resolution engine is not under the
source tree.  Confidence tier thresholds over the composite
similarity score: score ≥ 0.92 → EXACT; ≥ 0.75 → HIGH; ≥ 0.55 →
MEDIUM; ≥ 0.35 → LOW; below → NONE. -/
def tierOfScore (s : ℚ) : Tier :=
  if 92 / 100 ≤ s then .EXACT
  else if 75 / 100 ≤ s then .HIGH
  else if 55 / 100 ≤ s then .MEDIUM
  else if 35 / 100 ≤ s then .LOW
  else .NONE

/-- One row of input: either a known canonical profile URL or a raw
business name. -/
inductive SourceItem
  | url (u : String)
  | rawName (n : String)
deriving DecidableEq, Repr

/-- A resolution record: canonical identifier plus confidence tier. -/
structure ResolvedProfile where
  canonicalUrl : String
  confidence : Tier
deriving DecidableEq, Repr

/-- Best candidate by composite score. -/
def bestCandidate (cands : List (String × ℚ)) : Option (String × ℚ) :=
  cands.foldl
    (fun acc c =>
      match acc with
      | none => some c
      | some b => if b.2 < c.2 then some c else some b)
    none

/-- Modelled from the spec: `resolve(sourceItem) → ResolvedProfile`
is not under the source tree.  If the item is already a canonical URL
(passthrough mode, column type `linkedin_url` in the create flow),
confidence is EXACT and no search call is performed; otherwise one
name search is performed, the best candidate is selected by composite
score and its tier is taken from the thresholds (zero candidates →
NONE).  The second component counts the search calls performed. -/
def resolve (search : String → List (String × ℚ)) :
    SourceItem → ResolvedProfile × Nat
  | .url u => (⟨u, .EXACT⟩, 0)
  | .rawName n =>
    match bestCandidate (search n) with
    | none => (⟨"", .NONE⟩, 1)
    | some (u, s) => (⟨u, tierOfScore s⟩, 1)

/-- Column-type choices of the create flow's "Column Contains"
select (`CreateScraper.jsx`). -/
def columnTypeOptions : List String :=
  ["company_name", "linkedin_url"]

/- ------------------------------------------------------------------
Scheduler.
------------------------------------------------------------------ -/

/-- Recurrence frequencies of a SchedulePolicy. -/
inductive Frequency
  | once
  | daily
  | weekly
  | monthly
deriving DecidableEq, Repr

/-- Modelled from the spec: scheduler-relevant job state.  `disabled`
is set once a ONCE job completes successfully; `lastFiredDay` is the
day (as a day index) the job last fired; `activeRun` is whether a run
is currently active. -/
structure SchedJob where
  freq : Frequency
  disabled : Bool
  lastFiredDay : Option Nat
  activeRun : Bool
deriving DecidableEq, Repr

/-- Period index of a day for a frequency (day count for daily, week
for weekly, month approximated as 30 days for monthly; a ONCE job has
a single period). -/
def periodIndex : Frequency → Nat → Nat
  | .once, _ => 0
  | .daily, d => d
  | .weekly, d => d / 7
  | .monthly, d => d / 30

/-- Modelled from the spec: a new occurrence is due (for one
occurrence per period) when the job is not disabled and has not
already fired in the current period; a ONCE job is due only if it has
never fired. -/
def due (j : SchedJob) (today : Nat) : Bool :=
  if j.disabled then false
  else
    match j.freq, j.lastFiredDay with
    | .once, some _ => false
    | _, none => true
    | f, some d => periodIndex f d < periodIndex f today

/-- Modelled from the spec: a scheduler tick fires `launch` for a job
only if a new occurrence is due and no run for that job is currently
active; firing records the day and marks a run active.  Returns
whether a run was fired. -/
def tick (j : SchedJob) (today : Nat) : Bool × SchedJob :=
  if due j today && !j.activeRun then
    (true, { j with lastFiredDay := some today, activeRun := true })
  else (false, j)

/-- Modelled from the spec: a run's successful COMPLETED transition
clears the active flag and disables ONCE-frequency jobs. -/
def completeRun (j : SchedJob) : SchedJob :=
  { j with
    activeRun := false
    disabled := j.disabled || j.freq == .once }

/-- Run the scheduler over a list of tick days, reporting whether any
tick fired. -/
def anyFire (j : SchedJob) (days : List Nat) : Bool :=
  (days.foldl
    (fun acc d =>
      let p := tick acc.2 d
      (acc.1 || p.1, p.2))
    (false, j)).1

/- ------------------------------------------------------------------
Confidence badge of the job-detail view.
------------------------------------------------------------------ -/

/-- Style table of `ConfidenceBadge` in the job-detail page: the
recognised confidence values and their badge classes. -/
def confidenceStyles : List (String × String) :=
  [("exact", "badge-success"),
   ("high", "badge-success"),
   ("medium", "badge-warning"),
   ("low", "badge-danger"),
   ("no_match", "badge-muted")]

/-- CSS class chosen by `ConfidenceBadge` (part_004 variant): a
missing confidence renders the danger badge, a recognised value its
style, anything else the muted badge. -/
def confidenceBadgeClass (c : Option String) : String :=
  match c with
  | none => "badge-danger"
  | some s =>
    match confidenceStyles.lookup s with
    | some cls => cls
    | none => "badge-muted"

/-- String a tier renders as in the job-detail badges (the NONE tier
is rendered as the `no_match` badge value). -/
def Tier.render : Tier → String
  | .EXACT => "exact"
  | .HIGH => "high"
  | .MEDIUM => "medium"
  | .LOW => "low"
  | .NONE => "no_match"

/- ------------------------------------------------------------------
Selected-roles list of the employee-scraping panel (JobDetail).
------------------------------------------------------------------ -/

/-- `addRole` of the employee-scraping panel: append the role unless
it is already selected. -/
def addRole (role : String) (selectedRoles : List String) : List String :=
  if role ∈ selectedRoles then selectedRoles else selectedRoles ++ [role]

/-- `removeRole` of the employee-scraping panel: filter out every
occurrence of the role. -/
def removeRole (role : String) (selectedRoles : List String) : List String :=
  selectedRoles.filter (fun r => r ≠ role)

/-- `addCustomRole` of the employee-scraping panel: append the
trimmed custom role when it is non-empty and not already selected. -/
def addCustomRole (customRole : String) (selectedRoles : List String) :
    List String :=
  if customRole.trim ≠ "" ∧ customRole.trim ∉ selectedRoles then
    selectedRoles ++ [customRole.trim]
  else selectedRoles

/-- The three operations the panel performs on the selected-roles
list. -/
inductive RoleOp
  | add (r : String)
  | addCustom (r : String)
  | remove (r : String)
deriving DecidableEq, Repr

/-- Apply one panel operation to the selected-roles list. -/
def applyRoleOp (l : List String) : RoleOp → List String
  | .add r => addRole r l
  | .addCustom r => addCustomRole r l
  | .remove r => removeRole r l

/- ------------------------------------------------------------------
Manual data-source creation (CreateScraper).
------------------------------------------------------------------ -/

/-- Parsing of the manual-URLs textarea in `handleCreateDataSource`:
split on newlines, trim, drop empties. -/
def parseManualUrls (manualUrls : String) : List String :=
  ((manualUrls.splitOn "\n").map String.trim).filter (fun u => u ≠ "")

/-- Request body sent by the manual branch of
`handleCreateDataSource`, as ordered field/value pairs.  The handler
of `CreateScraper.jsx` computes the parsed URL values but does not
put them in the body; `part_005` does not even parse them. -/
def manualSourceBody (sourceName manualUrls : String) :
    List (String × String) :=
  let _values := parseManualUrls manualUrls
  [("name", if sourceName = "" then "Manual URLs" else sourceName),
   ("source_type", "manual"),
   ("column_type", "linkedin_url")]

/- ------------------------------------------------------------------
Employee-scraping launch handler (JobDetail).
------------------------------------------------------------------ -/

/-- State of the employee-scraping panel that
`handleLaunchEmployeeScraping` reads and writes. -/
structure ScrapePanelState where
  selectedCompanies : List Nat
  selectedRoles : List String
  selectedAccountId : String
  scrapeLoading : Bool
  scrapeError : Option String
deriving DecidableEq, Repr

/-- `handleLaunchEmployeeScraping`: if no company is selected, no
role is selected, or no account id is chosen, return immediately with
no request issued and the state untouched; otherwise issue the create
and launch requests (successful network path: loading ends false,
error cleared). -/
def handleLaunchEmployeeScraping (s : ScrapePanelState) :
    List String × ScrapePanelState :=
  if s.selectedCompanies = [] ∨ s.selectedRoles = [] ∨ s.selectedAccountId = ""
  then ([], s)
  else
    (["createEmployeeScraping", "launchScraperJob"],
     { s with scrapeLoading := false, scrapeError := none })

/-- Disabled condition of the panel's launch button:
`scrapeLoading || selectedRoles.length === 0 || !selectedAccountId`. -/
def scrapeButtonDisabled (s : ScrapePanelState) : Bool :=
  s.scrapeLoading || s.selectedRoles.isEmpty || s.selectedAccountId == ""

/- ------------------------------------------------------------------
Helper lemmas.
------------------------------------------------------------------ -/

lemma acquire_of_mem {g : GuardState} {acc : String} (h : acc ∈ g.held) :
    acquire g acc = (.busy, g) := by
  simp [acquire, h]

lemma acquire_of_not_mem {g : GuardState} {acc : String} (h : acc ∉ g.held) :
    acquire g acc = (.lease, ⟨acc :: g.held⟩) := by
  simp [acquire, h]

lemma acquireRun_of_mem {g : GuardState} {acc : String} (h : acc ∈ g.held) :
    ∀ n, acquireRun g acc n = List.replicate n .busy := by
  intro n
  induction n with
  | zero => rfl
  | succ n ih =>
    simp only [acquireRun, acquire_of_mem h, List.replicate_succ]
    exact congrArg _ ih

lemma release_not_mem (g : GuardState) (acc : String) :
    acc ∉ (release g acc).held := by
  simp [release]

lemma fetchTimes_cons (m t0 : Nat) (js : List Nat) :
    ∃ rest, fetchTimes m t0 js = t0 :: rest := by
  cases js <;> exact ⟨_, rfl⟩

lemma tick_disabled {j : SchedJob} (d : Nat) (h : j.disabled = true) :
    tick j d = (false, j) := by
  simp [tick, due, h]

lemma completeRun_once_disabled {j : SchedJob} (h : j.freq = .once) :
    (completeRun j).disabled = true := by
  simp [completeRun, h]

lemma anyFire_foldl_disabled {j : SchedJob} (h : j.disabled = true) :
    ∀ (days : List Nat) (b : Bool),
      days.foldl
        (fun acc d =>
          let p := tick acc.2 d
          (acc.1 || p.1, p.2))
        (b, j) = (b, j) := by
  intro days
  induction days with
  | nil => intro b; rfl
  | cons d days ih =>
    intro b
    simp only [List.foldl_cons, tick_disabled d h, Bool.or_false]
    exact ih b

lemma tick_fired_active {j : SchedJob} {d : Nat} (h : (tick j d).1 = true) :
    (tick j d).2.activeRun = true := by
  unfold tick at h ⊢
  split_ifs at h ⊢ with hc
  · rfl

lemma tick_active_no_fire {j : SchedJob} (d : Nat) (h : j.activeRun = true) :
    tick j d = (false, j) := by
  simp [tick, h]

lemma nodup_append_singleton {l : List String} {r : String}
    (h : l.Nodup) (hr : r ∉ l) : (l ++ [r]).Nodup := by
  simp [List.nodup_append, h, hr]

lemma applyRoleOp_nodup (l : List String) (op : RoleOp) (h : l.Nodup) :
    (applyRoleOp l op).Nodup := by
  cases op with
  | add r =>
    by_cases hr : r ∈ l
    · simpa [applyRoleOp, addRole, hr] using h
    · simpa [applyRoleOp, addRole, hr] using nodup_append_singleton h hr
  | addCustom r =>
    by_cases hc : r.trim ≠ "" ∧ r.trim ∉ l
    · simpa [applyRoleOp, addCustomRole, hc] using
        nodup_append_singleton h hc.2
    · simpa [applyRoleOp, addCustomRole, hc] using h
  | remove r =>
    exact List.Nodup.filter _ h

/- ------------------------------------------------------------------
Claim theorems.
------------------------------------------------------------------ -/

/-- C1: calling launch on a job that already has an active run
returns the "job already running" error and causes no state change;
calling launch on a job in PENDING, PAUSED, COMPLETED or FAILED
creates a fresh active run; and the job-detail UI offers the launch
action exactly when the job's status is not 'processing'. -/
theorem launch_active_invalid_else_fresh_run (j : Job) :
    (j.state.isActive = true →
      launch j = (.error "job already running", j)) ∧
    ((j.state = .PENDING ∨ j.state = .PAUSED ∨
        j.state = .COMPLETED ∨ j.state = .FAILED) →
      (launch j).1 = .launched ∧
      (launch j).2.runCount = j.runCount + 1 ∧
      (launch j).2.state.isActive = true) ∧
    (∀ s : String, showLaunchButton s = true ↔ s ≠ "processing") := by
  refine ⟨?_, ?_, ?_⟩
  · intro h
    simp [launch, h]
  · rintro (h | h | h | h) <;> simp [launch, h, JobState.isActive]
  · intro s
    simp [showLaunchButton]

theorem launch_active_invalid_else_fresh_run_witness :
    launch ⟨.RESOLVING, 0⟩ = (.error "job already running", ⟨.RESOLVING, 0⟩) ∧
    (launch ⟨.PENDING, 0⟩).1 = .launched ∧
    (launch ⟨.PENDING, 0⟩).2.runCount = 1 ∧
    showLaunchButton "completed" = true :=
  ⟨(launch_active_invalid_else_fresh_run ⟨.RESOLVING, 0⟩).1 rfl,
   ((launch_active_invalid_else_fresh_run ⟨.PENDING, 0⟩).2.1 (Or.inl rfl)).1,
   ((launch_active_invalid_else_fresh_run ⟨.PENDING, 0⟩).2.1 (Or.inl rfl)).2.1,
   ((launch_active_invalid_else_fresh_run ⟨.PENDING, 0⟩).2.2 "completed").2
     (by decide)⟩

/-- C2: the account guard keeps at most one outstanding lease per
account: while a lease is held, an acquire for that account returns
busy and changes nothing (so any run of further acquires is all
busy), and after a release exactly one of the subsequent consecutive
acquires for that account succeeds. -/
theorem accountGuard_exclusive (g : GuardState) (acc : String) (n : Nat) :
    (acc ∈ g.held → acquire g acc = (.busy, g)) ∧
    (acc ∈ g.held → acquireRun g acc n = List.replicate n .busy) ∧
    (1 ≤ n →
      (acquireRun (release g acc) acc n).count .lease = 1) := by
  refine ⟨fun h => acquire_of_mem h, fun h => acquireRun_of_mem h n, ?_⟩
  intro hn
  obtain ⟨m, rfl⟩ : ∃ m, n = m + 1 := ⟨n - 1, by omega⟩
  have hnot := release_not_mem g acc
  simp only [acquireRun, acquire_of_not_mem hnot]
  have hmem : acc ∈ (GuardState.mk (acc :: (release g acc).held)).held :=
    List.mem_cons_self _ _
  rw [acquireRun_of_mem hmem m]
  simp [List.count_replicate]

theorem accountGuard_exclusive_witness :
    acquire ⟨["a"]⟩ "a" = (.busy, ⟨["a"]⟩) ∧
    acquireRun ⟨["a"]⟩ "a" 2 = List.replicate 2 .busy ∧
    (acquireRun (release ⟨["a"]⟩ "a") "a" 3).count .lease = 1 :=
  ⟨(accountGuard_exclusive ⟨["a"]⟩ "a" 2).1 (by simp),
   (accountGuard_exclusive ⟨["a"]⟩ "a" 2).2.1 (by simp),
   (accountGuard_exclusive ⟨["a"]⟩ "a" 3).2.2 (by omega)⟩

/-- C3: for every extraction schedule, consecutive page fetches under
the same lease are separated by at least the configured minimum
spacing floor: each fetch time plus the floor is at most the next
fetch time. -/
theorem extraction_min_spacing (m t0 : Nat) (js : List Nat) :
    List.Chain' (fun a b => a + m ≤ b) (fetchTimes m t0 js) := by
  induction js generalizing t0 with
  | nil => simp [fetchTimes]
  | cons j js ih =>
    obtain ⟨rest, hr⟩ := fetchTimes_cons m (t0 + m + j) js
    rw [fetchTimes, hr, List.chain'_cons]
    exact ⟨by omega, hr ▸ ih (t0 + m + j)⟩

/-- C4: the confidence tier is a non-decreasing function of the
composite similarity score, with score ≥ 0.92 mapping to EXACT,
≥ 0.75 to HIGH, ≥ 0.55 to MEDIUM, ≥ 0.35 to LOW, and below 0.35 to
NONE, under the ordering NONE < LOW < MEDIUM < HIGH < EXACT. -/
theorem tier_monotone_and_thresholds (s s1 s2 : ℚ) :
    (s1 ≤ s2 → (tierOfScore s1).rank ≤ (tierOfScore s2).rank) ∧
    (92 / 100 ≤ s → tierOfScore s = .EXACT) ∧
    (75 / 100 ≤ s → s < 92 / 100 → tierOfScore s = .HIGH) ∧
    (55 / 100 ≤ s → s < 75 / 100 → tierOfScore s = .MEDIUM) ∧
    (35 / 100 ≤ s → s < 55 / 100 → tierOfScore s = .LOW) ∧
    (s < 35 / 100 → tierOfScore s = .NONE) := by
  refine ⟨?_, ?_, ?_, ?_, ?_, ?_⟩
  · intro h
    unfold tierOfScore
    split_ifs <;> norm_num [Tier.rank] <;> linarith
  · intro h
    unfold tierOfScore
    rw [if_pos h]
  · intro h1 h2
    unfold tierOfScore
    split_ifs <;> first | rfl | linarith
  · intro h1 h2
    unfold tierOfScore
    split_ifs <;> first | rfl | linarith
  · intro h1 h2
    unfold tierOfScore
    split_ifs <;> first | rfl | linarith
  · intro h
    unfold tierOfScore
    split_ifs <;> first | rfl | linarith

theorem tier_monotone_and_thresholds_witness :
    (tierOfScore (1 / 2)).rank ≤ (tierOfScore (8 / 10)).rank ∧
    tierOfScore (95 / 100) = .EXACT ∧
    tierOfScore (8 / 10) = .HIGH ∧
    tierOfScore (6 / 10) = .MEDIUM ∧
    tierOfScore (4 / 10) = .LOW ∧
    tierOfScore (1 / 10) = .NONE :=
  ⟨(tier_monotone_and_thresholds 0 (1 / 2) (8 / 10)).1 (by norm_num),
   (tier_monotone_and_thresholds (95 / 100) 0 0).2.1 (by norm_num),
   (tier_monotone_and_thresholds (8 / 10) 0 0).2.2.1 (by norm_num)
     (by norm_num),
   (tier_monotone_and_thresholds (6 / 10) 0 0).2.2.2.1 (by norm_num)
     (by norm_num),
   (tier_monotone_and_thresholds (4 / 10) 0 0).2.2.2.2.1 (by norm_num)
     (by norm_num),
   (tier_monotone_and_thresholds (1 / 10) 0 0).2.2.2.2.2 (by norm_num)⟩

/-- C5: for every source item that is already a known canonical URL,
resolve returns a profile with confidence EXACT (keeping the URL) and
performs no search call; and the create flow's column-type choices
include the passthrough type 'linkedin_url'. -/
theorem resolve_passthrough_exact_no_search :
    (∀ (search : String → List (String × ℚ)) (u : String),
      (resolve search (.url u)).1.confidence = .EXACT ∧
      (resolve search (.url u)).1.canonicalUrl = u ∧
      (resolve search (.url u)).2 = 0) ∧
    "linkedin_url" ∈ columnTypeOptions := by
  refine ⟨fun search u => ⟨rfl, rfl, rfl⟩, ?_⟩
  simp [columnTypeOptions]

/-- C6: a ONCE-frequency job never fires again after its first
successful COMPLETED run (no tick over any sequence of days fires);
for a DAILY policy, a tick on the day the job already fired after a
successful run fires nothing, and two scheduler ticks within the same
day fire at most one run between them. -/
theorem scheduler_once_and_daily (j : SchedJob) (d : Nat) (days : List Nat) :
    (j.freq = .once → anyFire (completeRun j) days = false) ∧
    (j.freq = .daily → j.lastFiredDay = some d →
      tick (completeRun j) d = (false, completeRun j)) ∧
    (j.freq = .daily →
      ¬((tick j d).1 = true ∧ (tick (tick j d).2 d).1 = true)) := by
  refine ⟨?_, ?_, ?_⟩
  · intro h
    unfold anyFire
    rw [anyFire_foldl_disabled (completeRun_once_disabled h) days false]
  · intro hf hd
    have hdue : due (completeRun j) d = false := by
      simp [due, completeRun, hf, hd, periodIndex]
    simp [tick, hdue]
  · rintro - ⟨h1, h2⟩
    rw [tick_active_no_fire d (tick_fired_active h1)] at h2
    exact absurd h2 (by simp)

theorem scheduler_once_and_daily_witness :
    anyFire (completeRun ⟨.once, false, some 3, false⟩) [4, 5, 6] = false ∧
    tick (completeRun ⟨.daily, false, some 5, false⟩) 5 =
      (false, completeRun ⟨.daily, false, some 5, false⟩) ∧
    ¬((tick ⟨.daily, false, none, false⟩ 7).1 = true ∧
      (tick (tick ⟨.daily, false, none, false⟩ 7).2 7).1 = true) :=
  ⟨(scheduler_once_and_daily ⟨.once, false, some 3, false⟩ 0 [4, 5, 6]).1 rfl,
   (scheduler_once_and_daily ⟨.daily, false, some 5, false⟩ 5 []).2.1 rfl rfl,
   (scheduler_once_and_daily ⟨.daily, false, none, false⟩ 7 []).2.2 rfl⟩

/-- C7: the confidence tier takes exactly one of the five values
EXACT, HIGH, MEDIUM, LOW, NONE; distinct tiers render as distinct
badge values; and the confidence values the job-detail badge styles
recognise are exactly the renderings of these five tiers. -/
theorem confidence_tier_five_values :
    (∀ t : Tier, t = .EXACT ∨ t = .HIGH ∨ t = .MEDIUM ∨
      t = .LOW ∨ t = .NONE) ∧
    (∀ t u : Tier, t.render = u.render → t = u) ∧
    confidenceStyles.map Prod.fst =
      [Tier.EXACT, .HIGH, .MEDIUM, .LOW, .NONE].map Tier.render := by
  refine ⟨?_, ?_, rfl⟩
  · intro t
    cases t <;> simp
  · intro t u h
    cases t <;> cases u <;> first | rfl | (exact absurd h (by decide))

/-- C8: the selected-roles list of the employee-scraping panel never
contains duplicates: any sequence of add-role, add-custom-role and
remove-role operations applied from the empty list yields a list in
which each role string appears at most once. -/
theorem selectedRoles_nodup (ops : List RoleOp) :
    (ops.foldl applyRoleOp []).Nodup := by
  have key : ∀ (ops : List RoleOp) (l : List String), l.Nodup →
      (ops.foldl applyRoleOp l).Nodup := by
    intro ops
    induction ops with
    | nil => intro l h; simpa
    | cons op ops ih =>
      intro l h
      exact ih _ (applyRoleOp_nodup l op h)
  exact key ops [] List.nodup_nil

/-- C9: the manual-data-source request body contains only the three
fields name, source_type = 'manual' and column_type = 'linkedin_url',
and is the same no matter what is typed in the manual-URLs textarea:
the parsed URL lines are never included in it. -/
theorem manual_source_body_constant (sourceName u1 u2 : String) :
    manualSourceBody sourceName u1 = manualSourceBody sourceName u2 ∧
    (manualSourceBody sourceName u1).map Prod.fst =
      ["name", "source_type", "column_type"] ∧
    (manualSourceBody sourceName u1).get? 1 =
      some ("source_type", "manual") ∧
    (manualSourceBody sourceName u1).get? 2 =
      some ("column_type", "linkedin_url") :=
  ⟨rfl, rfl, rfl, rfl⟩

/-- C10: with no company selected, no role selected, or no account id
chosen, the employee-scraping launch handler issues no request and
leaves the panel state (in particular the loading and error fields)
unchanged; and the launch button is disabled whenever the roles list
is empty or no account is selected. -/
theorem scraping_handler_guard (s : ScrapePanelState) :
    ((s.selectedCompanies = [] ∨ s.selectedRoles = [] ∨
        s.selectedAccountId = "") →
      handleLaunchEmployeeScraping s = ([], s)) ∧
    ((s.selectedRoles = [] ∨ s.selectedAccountId = "") →
      scrapeButtonDisabled s = true) := by
  constructor
  · intro h
    unfold handleLaunchEmployeeScraping
    rw [if_pos h]
  · rintro (h | h) <;> simp [scrapeButtonDisabled, h]

theorem scraping_handler_guard_witness :
    handleLaunchEmployeeScraping ⟨[], ["ceo"], "acc1", false, none⟩ =
      ([], ⟨[], ["ceo"], "acc1", false, none⟩) ∧
    scrapeButtonDisabled ⟨[1], [], "acc1", false, none⟩ = true :=
  ⟨(scraping_handler_guard ⟨[], ["ceo"], "acc1", false, none⟩).1
     (Or.inl rfl),
   (scraping_handler_guard ⟨[1], [], "acc1", false, none⟩).2
     (Or.inl rfl)⟩

end Zavis
